import Mathlib

/-!
Verification of the cordon-ai/cordon-orchestrator task-orchestration core.

This file gives a shallow embedding, in Lean 4, of the parts of the
repository that its specification makes claims about:

* the orchestrator (`src/python/src/cordon/orchestrator.py`):
  task decomposition, assignment, the sequential execution engine,
  the command sandbox, response coordination and request routing;
* the supervisor agent (`src/python/src/cordon/agents/supervisor_agent.py`):
  option validation, tool wiring and the dispatch fan-out;
* the Anthropic agent's non-streaming tool-recursion loop
  (`src/python/src/cordon/agents/anthropic_agent.py`).

Modelling conventions, used throughout:

* Python exceptions are modelled with `Except String`; the carried string
  is the Python `str(e)` of the raised exception.  Where a raising method
  also mutates the orchestrator object before raising, the error value
  carries the mutated state, since in Python the object's state survives
  the exception.
* Python `dict`s are modelled as association lists with
  `dictGet?` / `dictSet` (key membership and in-place update); Python
  `set`s of task ids as duplicate-free lists.
* External effects (the Anthropic API, spawned processes, team agents'
  model calls) are modelled as explicit oracle functions supplied as
  parameters or state fields, returning `Except String` results.
* `print` logging, timestamps (`created_at`/`started_at`/`completed_at`,
  read from the asyncio clock) and the optional `progress_callback`
  argument (a pure event sink per the spec, held `None` here) are not
  modelled; no claim mentions them.
* `uuid.uuid4()` is determinised by an identifier stream
  (`fresh : Nat -> String`) indexed by creation position.
-/

namespace Cordon

/-!
Python string primitives, implemented by structural recursion over the
underlying character list so that every definition below is fully
kernel-reducible (Lean's own `String.split`/`trim`/`toLower` are
well-founded-recursive and cannot be evaluated inside proofs).
-/

/-- Whether `needle` is a prefix of `haystack` (on character lists). -/
def isPrefixList : List Char → List Char → Bool
  | [], _ => true
  | _ :: _, [] => false
  | a :: as, b :: bs => a == b && isPrefixList as bs

/-- Whether `needle` occurs contiguously in `haystack` (on character
lists); the empty needle occurs everywhere, as in Python. -/
def containsList (needle : List Char) : List Char → Bool
  | [] => needle.isEmpty
  | c :: rest => isPrefixList needle (c :: rest) || containsList needle rest

/-- Python's substring test `needle in haystack` for strings. -/
def pyIn (needle haystack : String) : Bool :=
  containsList needle.data haystack.data

/-- Python `s.lower()` (ASCII case folding, which covers every string the
source lowers). -/
def pyLower (s : String) : String :=
  String.mk (s.data.map Char.toLower)

/-- Python `s.strip()`: drop leading and trailing whitespace. -/
def pyStrip (s : String) : String :=
  String.mk (((s.data.dropWhile Char.isWhitespace).reverse.dropWhile Char.isWhitespace).reverse)

/-- Python `s.split(sep)` for a single-character separator: the list of
(possibly empty) fragments between occurrences of `sep`; the empty string
yields one empty fragment. -/
def splitCharList (sep : Char) : List Char → List (List Char)
  | [] => [[]]
  | c :: cs =>
    match splitCharList sep cs with
    | [] => [[]]
    | g :: gs => if c == sep then [] :: g :: gs else (c :: g) :: gs

/-- Python `s.split(sep)` on strings, single-character separator. -/
def pySplitChar (sep : Char) (s : String) : List String :=
  (splitCharList sep s.data).map String.mk

/-- First occurrence of `sep`: the characters before it and after it. -/
def breakAtChar (sep : Char) : List Char → Option (List Char × List Char)
  | [] => none
  | c :: cs =>
    if c == sep then some ([], cs)
    else (breakAtChar sep cs).map fun p => (c :: p.1, p.2)

/-- Python `s.split(sep, 1)` for a single-character separator: at most
one split, at the first occurrence. -/
def pySplitOnceChar (sep : Char) (s : String) : List String :=
  match breakAtChar sep s.data with
  | none => [s]
  | some (a, b) => [String.mk a, String.mk b]

/-- Python dict lookup `d.get(k)` / `k in d` on an association list. -/
def dictGet? {α : Type} (d : List (String × α)) (k : String) : Option α :=
  match d with
  | [] => none
  | (k', v) :: rest => if k' == k then some v else dictGet? rest k

/-- Python dict assignment `d[k] = v`: update in place, or append the key. -/
def dictSet {α : Type} (d : List (String × α)) (k : String) (v : α) :
    List (String × α) :=
  match d with
  | [] => [(k, v)]
  | (k', v') :: rest =>
    if k' == k then (k, v) :: rest else (k', v') :: dictSet rest k v

/-- Python set add `s.add(x)` on a duplicate-free list. -/
def setAdd (s : List String) (x : String) : List String :=
  if s.contains x then s else s ++ [x]

/-- Python truthiness of an `Optional[str]`: `None` and `""` are falsy. -/
def pyTruthyStr : Option String → Bool
  | none => false
  | some s => !s.isEmpty

/-- Python f-string rendering of an `Optional[str]` value: `None` prints
as the text "None". -/
def pyStrOpt : Option String → String
  | none => "None"
  | some s => s

/-- Task lifecycle states (`TaskStatus`, orchestrator.py lines 16-21). -/
inductive TaskStatus
  | pending
  | running
  | completed
  | failed
  | waiting
deriving DecidableEq, Repr

/-- Result of the command sandbox `AgentTeam.execute_command`: the Python
dict it returns, with dict keys as fields (`error` and `command` are
`none` when the corresponding key is absent from the returned dict). -/
structure CommandResult where
  success : Bool
  stdout : String
  stderr : String
  return_code : Int
  error : Option String := none
  command : Option String := none
deriving DecidableEq, Repr

/-- Output value stored in a `TaskResult`: the agent-path and the
no-command path store a string, the command path stores the sandbox's
result dict, and failed tasks store Python `None`. -/
inductive TaskOutput
  | text (s : String)
  | cmd (r : CommandResult)
  | none
deriving DecidableEq, Repr

/-- The `Task` dataclass (orchestrator.py lines 24-36).  The clock
timestamps and the free-form `input_data` dict are omitted (unused by
every claim); `output_data` keeps only its single `"result"` entry. -/
structure Task where
  id : String
  description : String := ""
  assigned_agent : Option String := none
  status : TaskStatus := .pending
  output_data : Option TaskOutput := Option.none
  error_message : Option String := none
  priority : Int := 0
deriving DecidableEq, Repr

/-- The `TaskResult` dataclass (orchestrator.py lines 39-45).  Its
`metadata` dict always holds exactly the keys `"agent"` (whose value may
be Python `None`) and `"task_description"`; they appear here as the two
`meta` fields. -/
structure TaskResult where
  task_id : String
  success : Bool
  output : TaskOutput
  error : Option String := none
  metaAgent : Option String := none
  metaDescription : String := ""
deriving DecidableEq, Repr

/-- An agent registered with the orchestrator, reduced to the interface
`AgentTeam` consumes: a name, a description, and `process_request`,
modelled as an oracle from the input text to either the reply's primary
text content or the `str()` of a raised exception.  (The `Agent` base
class itself is not under `src/`; this records the duck-typed surface the
orchestrator uses.) -/
structure OAgent where
  name : String
  description : String := ""
  processRequest : String → Except String String

/-- Outcome of spawning one command in the sandbox, as decided by the
operating system: normal completion with captured output and exit code,
expiry of the `asyncio.wait_for` timeout, or a failure to tokenize/spawn
(anything raised by `shlex.split` or `create_subprocess_exec`). -/
inductive CmdOutcome
  | completes (stdout stderr : String) (returncode : Int)
  | timesOut
  | spawnFails (msg : String)

/-- State of one `AgentTeam` instance (orchestrator.py lines 51-63),
together with the oracles that determinise its external interactions:
`parseResponse` stands for `_parse_supervisor_response` applied to the
classifier's reply text (its regex/JSON machinery is kept abstract; the
claims constrain only whether it raises), `cmdEnv` gives each spawned
command's outcome, and `freshIds` determinises `uuid.uuid4()`. -/
structure OrchState where
  agents : List OAgent := []
  supervisor : Option OAgent := Option.none
  command_execution_enabled : Bool := true
  tasks : List (String × Task) := []
  completed_tasks : List (String × TaskResult) := []
  agent_availability : List (String × Bool) := []
  agent_task_assignments : List (String × List String) := []
  parseResponse : String → Except String (List Task) := fun _ => .error "unparsed"
  cmdEnv : String → CmdOutcome := fun _ => .timesOut
  freshIds : Nat → String := fun n => toString n
  agentCallLog : List (String × String) := []

/-- `AgentTeam.add_agent` (orchestrator.py lines 65-69). -/
def add_agent (st : OrchState) (a : OAgent) : OrchState :=
  { st with
    agents := st.agents ++ [a]
    agent_availability := dictSet st.agent_availability a.name true
    agent_task_assignments := dictSet st.agent_task_assignments a.name [] }

/-- `AgentTeam.add_supervisor` (orchestrator.py lines 71-75). -/
def add_supervisor (st : OrchState) (s : OAgent) : OrchState :=
  { st with
    supervisor := some s
    agent_availability := dictSet st.agent_availability s.name true
    agent_task_assignments := dictSet st.agent_task_assignments s.name [] }

/-- `AgentTeam._get_agent_descriptions` (orchestrator.py lines 122-127). -/
def get_agent_descriptions (st : OrchState) : String :=
  String.intercalate "\n" (st.agents.map fun a => "- " ++ a.name ++ ": " ++ a.description)

/-- `AgentTeam._create_task_splitting_prompt` (orchestrator.py lines
129-147): the literal NLP prompt sent to the classifier agent. -/
def create_task_splitting_prompt (agent_descriptions user_input : String) : String :=
  "Given the agents in this team and their descriptions:\n"
    ++ agent_descriptions
    ++ "\n\nSplit this user prompt into the fewest amount of tasks and assign each task an agent. Return the task and agents as a json array of tasks with their respective agents.\n\nUser prompt: "
    ++ user_input
    ++ "\n\nReturn your response as a JSON array in this exact format:\n[\n  \x7b\n    \"description\": \"Task description here\",\n    \"assigned_agent\": \"AgentName\",\n    \"priority\": 0\n  \x7d\n]\n\nOnly return the JSON array, no other text."

/-- `AgentTeam._simple_task_splitting` (orchestrator.py lines 208-225):
the fallback splitter.  `user_input.split('.')` is enumerated; fragments
that are empty after `strip()` are skipped; each kept fragment yields a
`Task` with the stripped fragment as description and the fragment's
position in the raw split as priority. -/
def simple_task_splitting (fresh : Nat → String) (user_input : String) : List Task :=
  (pySplitChar '.' user_input).enum.filterMap fun p =>
    let sentence := pyStrip p.2
    if sentence.isEmpty then Option.none
    else some { id := fresh p.1, description := sentence, priority := (p.1 : Int) }

/-- `AgentTeam.split_input_into_tasks` (orchestrator.py lines 77-120).
With no supervisor, fall back to the simple splitter.  Otherwise build
the NLP prompt, call the supervisor and parse its reply; the `try` block
spans both the classifier call and the parse, and its `except` clause
returns the simple split, so either failing degrades to the fallback. -/
def split_input_into_tasks (st : OrchState) (user_input : String) : List Task :=
  match st.supervisor with
  | Option.none => simple_task_splitting st.freshIds user_input
  | some sup =>
    let nlp_prompt := create_task_splitting_prompt (get_agent_descriptions st) user_input
    match sup.processRequest nlp_prompt with
    | .error _ => simple_task_splitting st.freshIds user_input
    | .ok response_text =>
      match st.parseResponse response_text with
      | .error _ => simple_task_splitting st.freshIds user_input
      | .ok tasks => tasks

/-- `AgentTeam.execute_command` (orchestrator.py lines 458-548).  Returns
the result dict together with a flag recording whether `process.kill()`
was invoked.  The disabled short-circuit returns before anything is
spawned (and its dict carries no `command` key); on completion success is
exactly `returncode == 0` with the captured streams and exit code; on
timeout the process is killed and a timeout error reported; any spawn
failure is caught and reported as a failed execution. -/
def execute_command (enabled : Bool) (outcome : CmdOutcome) (command : String)
    (timeout : Int) : CommandResult × Bool :=
  if !enabled then
    ({ success := false, error := some "Command execution is disabled",
       stdout := "", stderr := "", return_code := -1 }, false)
  else
    match outcome with
    | .completes out err rc =>
      ({ success := rc == 0, stdout := out, stderr := err, return_code := rc,
         command := some command }, false)
    | .timesOut =>
      ({ success := false,
         error := some ("Command timed out after " ++ toString timeout ++ " seconds"),
         stdout := "", stderr := "", return_code := -1,
         command := some command }, true)
    | .spawnFails m =>
      ({ success := false, error := some ("Failed to execute command: " ++ m),
         stdout := "", stderr := "", return_code := -1,
         command := some command }, false)

/-- `AgentTeam._extract_command_from_task` (orchestrator.py lines
416-424): when the lowercased description mentions `run:` or `execute:`,
return the stripped text after the first colon of the (original)
description; otherwise nothing. -/
def extract_command_from_task (task : Task) : Option String :=
  let text := pyLower task.description
  if pyIn "run:" text || pyIn "execute:" text then
    match pySplitOnceChar ':' task.description with
    | _ :: after :: _ => some (pyStrip after)
    | _ => Option.none
  else Option.none

/-- Python string comparison `a.name == task.assigned_agent` inside the
agent lookup loop of `_execute_single_task`: a `str` never equals
`None`. -/
def findAssignedAgent (agents : List OAgent) (assigned : Option String) : Option OAgent :=
  match assigned with
  | Option.none => Option.none
  | some n => agents.find? fun a => a.name == n

/-- The `try` block of `AgentTeam._execute_single_task` (orchestrator.py
lines 327-371): resolve the assigned agent (raising when there is none),
mark it busy, then either run the command path (descriptions mentioning
`run:`, `execute:` or `command`) or invoke the agent's `process_request`.
Errors carry the state as mutated up to the raise point; invocations of
`process_request` are recorded in `agentCallLog`. -/
def execute_single_task_body (st : OrchState) (task : Task) :
    Except (String × OrchState) (TaskOutput × OAgent × OrchState) :=
  match findAssignedAgent st.agents task.assigned_agent with
  | Option.none =>
    .error ("No agent found for task: " ++ pyStrOpt task.assigned_agent, st)
  | some agent =>
    let st := { st with
      agent_availability := dictSet st.agent_availability agent.name false }
    let task_desc_lower := pyLower task.description
    if pyIn "run:" task_desc_lower || pyIn "execute:" task_desc_lower
        || pyIn "command" task_desc_lower then
      match extract_command_from_task task with
      | some command =>
        let result :=
          (execute_command st.command_execution_enabled (st.cmdEnv command) command 30).1
        .ok (.cmd result, agent, st)
      | Option.none => .ok (.text "No command found in task", agent, st)
    else
      let st := { st with agentCallLog := st.agentCallLog ++ [(agent.name, task.description)] }
      match agent.processRequest task.description with
      | .error e => .error (e, st)
      | .ok text => .ok (.text text, agent, st)

/-- The `finally` block of `AgentTeam._execute_single_task`
(orchestrator.py lines 410-414): when the task's `assigned_agent` is
truthy, set that agent's availability back to `True` and then discard the
task id from `agent_task_assignments[assigned_agent]` — a plain dict
subscript that raises `KeyError` when the name was never registered
(`set.discard` itself never raises).  An error raised here replaces the
in-flight result, as in Python. -/
def execute_single_task_finally (st : OrchState) (task : Task) (res : TaskResult) :
    Except (String × Task × OrchState) (TaskResult × Task × OrchState) :=
  if pyTruthyStr task.assigned_agent then
    let name := pyStrOpt task.assigned_agent
    let st := { st with agent_availability := dictSet st.agent_availability name true }
    match dictGet? st.agent_task_assignments name with
    | Option.none => .error ("KeyError: " ++ name, task, st)
    | some ids =>
      .ok (res, task,
        { st with agent_task_assignments := dictSet st.agent_task_assignments name (ids.erase task.id) })
  else .ok (res, task, st)

/-- `AgentTeam._execute_single_task` (orchestrator.py lines 322-414):
run the body, convert its outcome into a completed or failed task plus
`TaskResult` (recorded in `completed_tasks`, and mirrored into the
`tasks` dict as Python's aliasing does), then run the guaranteed
cleanup. -/
def execute_single_task (st : OrchState) (task0 : Task) :
    Except (String × Task × OrchState) (TaskResult × Task × OrchState) :=
  let task := { task0 with status := TaskStatus.running }
  match execute_single_task_body st task with
  | .ok (output, agent, st') =>
    let task' := { task with status := TaskStatus.completed, output_data := some output }
    let r : TaskResult :=
      { task_id := task.id, success := true, output := output,
        metaAgent := some agent.name, metaDescription := task.description }
    let st'' := { st' with
      completed_tasks := dictSet st'.completed_tasks task.id r
      tasks := dictSet st'.tasks task'.id task' }
    execute_single_task_finally st'' task' r
  | .error (e, st') =>
    let task' := { task with status := TaskStatus.failed, error_message := some e }
    let r : TaskResult :=
      { task_id := task.id, success := false, output := TaskOutput.none, error := some e,
        metaAgent := task.assigned_agent, metaDescription := task.description }
    let st'' := { st' with
      completed_tasks := dictSet st'.completed_tasks task.id r
      tasks := dictSet st'.tasks task'.id task' }
    execute_single_task_finally st'' task' r

/-- The per-task loop of `AgentTeam.execute_tasks_sequential`
(orchestrator.py lines 300-319): execute each task strictly in order,
collecting one result per task (task failure does not stop the loop; an
exception escaping `_execute_single_task` aborts it). -/
def execute_tasks_loop : List Task → OrchState →
    Except (String × OrchState) (List TaskResult × List Task × OrchState)
  | [], st => .ok ([], [], st)
  | t :: ts, st =>
    match execute_single_task st t with
    | .error (e, _, st') => .error (e, st')
    | .ok (r, t', st') =>
      match execute_tasks_loop ts st' with
      | .error (e, st'') => .error (e, st'')
      | .ok (rs, ts', st'') => .ok (r :: rs, t' :: ts', st'')

/-- `AgentTeam.execute_tasks_sequential` (orchestrator.py lines 292-319):
register every task in the `tasks` dict, then run them one by one in
input order. -/
def execute_tasks_sequential (st : OrchState) (tasks : List Task) :
    Except (String × OrchState) (List TaskResult × List Task × OrchState) :=
  let st := { st with tasks := tasks.foldl (fun d t => dictSet d t.id t) st.tasks }
  execute_tasks_loop tasks st

/-- Python dict membership with default: `d.get(name, True)` as used on
the availability map. -/
def agentAvailable (st : OrchState) (name : String) : Bool :=
  (dictGet? st.agent_availability name).getD true

/-- `AgentTeam._find_best_agent_for_task` (orchestrator.py lines
264-290): first agent that is available and whose name matches the
keyword heuristic against the lowercased description (the `elif` chain
per agent is the disjunction below), else the first available agent,
else nothing. -/
def find_best_agent_for_task (st : OrchState) (task : Task) : Option OAgent :=
  let task_desc_lower := pyLower task.description
  match st.agents.find? (fun agent =>
      agentAvailable st agent.name &&
      (let agent_name_lower := pyLower agent.name
       (pyIn "research" task_desc_lower && pyIn "research" agent_name_lower) ||
       (["code", "program", "develop", "write"].any (fun k => pyIn k task_desc_lower)
          && pyIn "coder" agent_name_lower) ||
       (["run", "execute", "command"].any (fun k => pyIn k task_desc_lower)
          && pyIn "command" agent_name_lower) ||
       (pyIn "analyze" task_desc_lower && pyIn "research" agent_name_lower))) with
  | some a => some a
  | Option.none => st.agents.find? fun a => agentAvailable st a.name

/-- One iteration of `AgentTeam.assign_tasks_to_agents` (orchestrator.py
lines 229-262).  A truthy assignee that is registered is kept (the task
id is added to its assignment set); an unknown assignee is recomputed via
the heuristic, and kept unchanged when no agent is found; a falsy
assignee is computed directly.  `agent_task_assignments[best.name].add`
is a dict subscript, raising `KeyError` for an unregistered best agent. -/
def assign_one_task (st : OrchState) (task : Task) : Except String (Task × OrchState) :=
  let viaBest : Except String (Task × OrchState) :=
    match find_best_agent_for_task st task with
    | some best =>
      match dictGet? st.agent_task_assignments best.name with
      | some ids =>
        .ok ({ task with assigned_agent := some best.name },
          { st with agent_task_assignments :=
              dictSet st.agent_task_assignments best.name (setAdd ids task.id) })
      | Option.none => .error ("KeyError: " ++ best.name)
    | Option.none => .ok (task, st)
  if pyTruthyStr task.assigned_agent then
    let agent_name := pyStrOpt task.assigned_agent
    match dictGet? st.agent_task_assignments agent_name with
    | some ids =>
      .ok (task,
        { st with agent_task_assignments :=
            dictSet st.agent_task_assignments agent_name (setAdd ids task.id) })
    | Option.none => viaBest
  else viaBest

/-- `AgentTeam.assign_tasks_to_agents` over the whole task list, threading
the orchestrator state. -/
def assign_tasks_to_agents : List Task → OrchState → Except String (List Task × OrchState)
  | [], st => .ok ([], st)
  | t :: ts, st =>
    match assign_one_task st t with
    | .error e => .error e
    | .ok (t', st') =>
      match assign_tasks_to_agents ts st' with
      | .error e => .error e
      | .ok (ts', st'') => .ok (t' :: ts', st'')

/-- Python `str(b)` of a bool. -/
def pyBoolStr (b : Bool) : String := if b then "True" else "False"

/-- Plain rendering of `str()` applied to a stored task output, used only
inside the coordinator's human-readable report (the exact quoting of
Python's dict `repr` is abstracted; no claim depends on this text). -/
def pyStrTaskOutput : TaskOutput → String
  | .text s => s
  | .none => "None"
  | .cmd c =>
    "\x7b\x27success\x27: " ++ pyBoolStr c.success
      ++ (match c.error with
          | some e => ", \x27error\x27: \x27" ++ e ++ "\x27"
          | Option.none => "")
      ++ ", \x27stdout\x27: \x27" ++ c.stdout ++ "\x27, \x27stderr\x27: \x27" ++ c.stderr
      ++ "\x27, \x27return_code\x27: " ++ toString c.return_code
      ++ (match c.command with
          | some cm => ", \x27command\x27: \x27" ++ cm ++ "\x27"
          | Option.none => "")
      ++ "\x7d"

/-- `AgentTeam.coordinate_responses` (orchestrator.py lines 426-456):
partition the results by success, and build the sectioned report (lines
are only emitted for results whose task is present in the `tasks`
dict). -/
def coordinate_responses (st : OrchState) (task_results : List TaskResult) : String :=
  if task_results.isEmpty then "No tasks were executed."
  else
    let successful_results := task_results.filter (·.success)
    let failed_results := task_results.filter fun r => !r.success
    let successLines : List String :=
      if successful_results.isEmpty then []
      else
        "## ✅ Successful Tasks" ::
          successful_results.flatMap fun r =>
            match dictGet? st.tasks r.task_id with
            | some task =>
              ["**" ++ task.description ++ "**",
               "Agent: " ++ pyStrOpt r.metaAgent,
               "Result: " ++ (pyStrTaskOutput r.output).take 200 ++ "...",
               ""]
            | Option.none => []
    let failedLines : List String :=
      if failed_results.isEmpty then []
      else
        "## ❌ Failed Tasks" ::
          failed_results.flatMap fun r =>
            match dictGet? st.tasks r.task_id with
            | some task =>
              ["**" ++ task.description ++ "**",
               "Error: " ++ pyStrOpt r.error,
               ""]
            | Option.none => []
    String.intercalate "\n" (successLines ++ failedLines)

/-- The ersatz response object built by `route_request` and
`_fallback_route_request`: `streaming`, `metadata.agent_name` (which can
be Python `None` when a failed first task had no assigned agent) and
`output`. -/
structure RouteResponse where
  streaming : Bool
  agent_name : Option String
  output : String
deriving DecidableEq, Repr

/-- `AgentTeam._classify_request` (orchestrator.py lines 567-611): ask
the supervisor to name an agent, match that name against the registered
agents (mutual case-insensitive containment), then the coder/research
partial fallbacks, then the first agent.  Exceptions from the supervisor
are caught and fall back to the first agent.  With no registered agents
every path yields nothing (the Python code would raise an IndexError
there; it is unreachable from `route_request`, which guards against an
empty agent list). -/
def classify_request (st : OrchState) (user_msg : String) : Option OAgent :=
  match st.supervisor with
  | Option.none => st.agents.head?
  | some sup =>
    match sup.processRequest user_msg with
    | .error _ => st.agents.head?
    | .ok reply =>
      let agent_name := pyStrip reply
      match st.agents.find? (fun agent =>
          pyIn (pyLower agent_name) (pyLower agent.name)
            || pyIn (pyLower agent.name) (pyLower agent_name)) with
      | some a => some a
      | Option.none =>
        if pyIn "coder" (pyLower agent_name) || pyIn "code" (pyLower agent_name) then
          match st.agents.find? (fun a =>
              pyIn "coder" (pyLower a.name) || pyIn "code" (pyLower a.name)) with
          | some a => some a
          | Option.none => st.agents.head?
        else if pyIn "research" (pyLower agent_name) then
          match st.agents.find? (fun a =>
              pyIn "researcher" (pyLower a.name) || pyIn "research" (pyLower a.name)) with
          | some a => some a
          | Option.none => st.agents.head?
        else st.agents.head?

/-- `AgentTeam._fallback_route_request` (orchestrator.py lines 662-689):
classify, default to the first agent, run that agent's `process_request`
under a `try` whose `except` turns the exception into an error-string
response.  The only possible raise is the `self.agents[0]` subscript on
an empty agent list. -/
def fallback_route_request (st : OrchState) (user_msg : String) :
    Except String RouteResponse :=
  match (classify_request st user_msg).orElse (fun _ => st.agents.head?) with
  | Option.none => .error "IndexError: list index out of range"
  | some agent =>
    match agent.processRequest user_msg with
    | .ok output =>
      .ok { streaming := false, agent_name := some agent.name, output := output }
    | .error e =>
      .ok { streaming := false, agent_name := some agent.name,
            output := "Error processing request: " ++ e }

/-- The `try` block of `AgentTeam.route_request` (orchestrator.py lines
622-655): decompose, default to a single task when decomposition yields
none, assign, execute sequentially, coordinate, and wrap the reply with
the first result's agent as primary metadata. -/
def route_request_pipeline (st : OrchState) (user_msg : String) :
    Except String RouteResponse :=
  let tasks := split_input_into_tasks st user_msg
  let tasks := if tasks.isEmpty then [{ id := st.freshIds 0, description := user_msg }] else tasks
  match assign_tasks_to_agents tasks st with
  | .error e => .error e
  | .ok (tasks, st) =>
    match execute_tasks_sequential st tasks with
    | .error (e, _) => .error e
    | .ok (task_results, _, st') =>
      let final_response := coordinate_responses st' task_results
      let primary_agent : Option String :=
        match task_results.head? with
        | some r => r.metaAgent
        | Option.none => some "TaskOrchestrator"
      .ok { streaming := false, agent_name := primary_agent, output := final_response }

/-- `AgentTeam.route_request` (orchestrator.py lines 613-660): an empty
agent registry short-circuits to the fixed no-agent response; otherwise
any exception escaping the task pipeline is caught and the request is
re-routed through the single-agent fallback path. -/
def route_request (st : OrchState) (user_msg : String) : Except String RouteResponse :=
  if st.agents.isEmpty then
    .ok { streaming := false, agent_name := some "no-agent", output := "No agents available" }
  else
    match route_request_pipeline st user_msg with
    | .ok resp => .ok resp
    | .error _ => fallback_route_request st user_msg

/-! Supervisor agent (`src/python/src/cordon/agents/supervisor_agent.py`). -/

/-- The value held by a lead agent's `tool_config` attribute: either
whatever the caller supplied (with its Python truthiness) or the dict
`\x7b'tool': supervisor_tools, 'toolMaxRecursions': n\x7d` installed by
`_configure_supervisor_tools`. -/
inductive LeadToolConfig
  | callerSupplied (truthy : Bool)
  | supervisorWired (numTools : Nat) (toolMaxRecursions : Nat)
deriving DecidableEq, Repr

/-- Python truthiness of a lead agent's `tool_config` attribute (`None`
is falsy; the supervisor's two-key dict is truthy). -/
def toolConfigTruthy : Option LeadToolConfig → Bool
  | Option.none => false
  | some (.callerSupplied t) => t
  | some (.supervisorWired _ _) => true

/-- The duck-typed surface of an arbitrary Python object passed as
`lead_agent`, as probed by `SupervisorAgentOptions.validate`:
`isinstance(_, Agent)`, `hasattr` for the three required methods and the
two tool-wiring hooks, whether reading the `tool_config` attribute
raises, and the attribute's current value. -/
structure LeadAgent where
  name : String := "lead"
  description : String := ""
  isAgentInstance : Bool := true
  hasSetSystemPrompt : Bool := true
  hasProcessRequest : Bool := true
  hasIsStreamingEnabled : Bool := true
  hasToolConfigAttr : Bool := true
  hasSetToolConfig : Bool := false
  toolConfigReadRaises : Bool := false
  tool_config : Option LeadToolConfig := Option.none
deriving DecidableEq, Repr

/-- `SupervisorAgentOptions` (supervisor_agent.py lines 13-19), reduced
to the fields `validate` and `__init__` consult.  `extra_tools` is kept
as the number of extra `AgentTool`s supplied (its element-type validation
cannot fail for well-typed input and is not modelled further). -/
structure SupervisorAgentOptions where
  lead_agent : LeadAgent
  extraToolCount : Nat := 0
deriving DecidableEq, Repr

/-- `SupervisorAgentOptions.validate` (supervisor_agent.py lines 21-70).
The capability checks raise; the already-set `tool_config` constraint is
evaluated inside a `try` whose `except Exception: pass` swallows every
exception raised within it — including the `ValueError` that the
truthy-`tool_config` branch itself raises.  `tryOutcome` is that inner
block; both of its outcomes fall through to success, exactly as the
source's `except ...: pass` does. -/
def SupervisorAgentOptions.validate (o : SupervisorAgentOptions) : Except String Unit :=
  if !o.lead_agent.isAgentInstance then
    .error "TypeError: Supervisor lead_agent must be an Agent instance"
  else if !(o.lead_agent.hasSetSystemPrompt && o.lead_agent.hasProcessRequest
      && o.lead_agent.hasIsStreamingEnabled) then
    .error "TypeError: lead_agent is missing required method(s)"
  else if !(o.lead_agent.hasToolConfigAttr || o.lead_agent.hasSetToolConfig) then
    .error "TypeError: lead_agent must support tool calling"
  else
    let tryOutcome : Except String Unit :=
      if o.lead_agent.hasToolConfigAttr then
        if o.lead_agent.toolConfigReadRaises then
          .error "AttributeError: tool_config not readable"
        else if toolConfigTruthy o.lead_agent.tool_config then
          .error "ValueError: Supervisor tools are managed by SupervisorAgent. Please leave lead_agent.tool_config unset; use extra_tools to add more tools."
        else .ok ()
      else .ok ()
    match tryOutcome with
    | .error _ => .ok ()
    | .ok _ => .ok ()

/-- `SupervisorAgent.DEFAULT_TOOL_MAX_RECURSIONS` (supervisor_agent.py
line 76). -/
def DEFAULT_TOOL_MAX_RECURSIONS : Nat := 40

/-- `SupervisorAgent._configure_supervisor_tools` (supervisor_agent.py
lines 97-147): build the tools list (the synthesized `send_messages`
tool plus any extra tools) and wire it into the lead — via
`set_tool_config` when the lead has one, otherwise by overwriting the
lead's `tool_config` attribute with the supervisor's dict. -/
def configure_supervisor_tools (lead : LeadAgent) (extraToolCount : Nat) : LeadAgent :=
  let wired := LeadToolConfig.supervisorWired (1 + extraToolCount) DEFAULT_TOOL_MAX_RECURSIONS
  if lead.hasSetToolConfig then { lead with tool_config := some wired }
  else { lead with tool_config := some wired }

/-- The observable outcome of `SupervisorAgent.__init__` (supervisor_agent.py
lines 78-95): the supervisor mirrors the lead's identity and holds the
(re)wired lead. -/
structure ConstructedSupervisor where
  name : String
  description : String
  lead_agent : LeadAgent
deriving DecidableEq, Repr

/-- `SupervisorAgent.__init__` (supervisor_agent.py lines 78-95): run
`options.validate()` (propagating anything it raises), mirror the lead's
name and description, and configure the supervisor tools and prompt. -/
def supervisor_agent_init (o : SupervisorAgentOptions) : Except String ConstructedSupervisor :=
  match o.validate with
  | .error e => .error e
  | .ok _ =>
    .ok { name := o.lead_agent.name, description := o.lead_agent.description,
          lead_agent := configure_supervisor_tools o.lead_agent o.extraToolCount }

/-- A team member as `SupervisorAgent.send_message` consumes it: a name
and its `process_request`, modelled as an oracle from the message content
to the reply's final text (chat-history persistence does not alter the
returned value and is abstracted into the oracle). -/
structure TeamAgent where
  name : String
  reply : String → Except String String

/-- One `\x7brecipient, content\x7d` pair of the dispatch tool's
`messages` argument. -/
structure DispatchMessage where
  recipient : String
  content : String
deriving DecidableEq, Repr

/-- `SupervisorAgent.send_message` (supervisor_agent.py lines 205-256):
run the team agent on the content and return its final response prefixed
with the agent's name; exceptions are logged and re-raised. -/
def send_message (agent : TeamAgent) (content : String) : Except String String :=
  match agent.reply content with
  | .ok final_response => .ok (agent.name ++ ": " ++ final_response)
  | .error e => .error e

/-- The matched (agent, message) pairs of `SupervisorAgent.send_messages`
(supervisor_agent.py lines 260-274): the comprehension iterates the team
in the outer loop and the messages in the inner loop, keeping pairs whose
recipient equals the agent's name exactly. -/
def matchedDispatch (team : List TeamAgent) (messages : List DispatchMessage) :
    List (TeamAgent × DispatchMessage) :=
  team.flatMap fun agent =>
    (messages.filter fun m => agent.name == m.recipient).map fun m => (agent, m)

/-- Plain rendering of Python `str(messages)` for the no-match reply
(quoting of Python's list/dict repr abstracted; no claim depends on it). -/
def pyStrDispatchMessages (messages : List DispatchMessage) : String :=
  "[" ++ String.intercalate ", "
      (messages.map fun m =>
        "\x7b\x27recipient\x27: \x27" ++ m.recipient ++ "\x27, \x27content\x27: \x27" ++ m.content ++ "\x27\x7d")
    ++ "]"

/-- `SupervisorAgent.send_messages` (supervisor_agent.py lines 258-284):
fan the matched pairs out (one `asyncio.to_thread` task per pair,
gathered in list order), and join the labeled replies into one string;
with no matched pair, report that no agent matches.  A failing member's
exception propagates (`asyncio.gather` re-raises it); the gather is
determinised to the first failing pair in list order. -/
def send_messages (team : List TeamAgent) (messages : List DispatchMessage) :
    Except String String :=
  let pairs := matchedDispatch team messages
  if pairs.isEmpty then
    .ok ("No agent matches for the request:" ++ pyStrDispatchMessages messages)
  else
    match pairs.mapM (fun p => send_message p.1 p.2.content) with
    | .error e => .error e
    | .ok responses => .ok (String.join responses)

/-! Anthropic agent non-streaming tool loop
(`src/python/src/cordon/agents/anthropic_agent.py`). -/

/-- One content block of an Anthropic API `Message`: its `type` tag and,
for text blocks, the text payload. -/
structure AnthContent where
  type : String
  text : Option String := Option.none
deriving DecidableEq, Repr

/-- One entry of the `payload_input["messages"]` conversation sent to the
model: the original user/history entries, an appended raw assistant
reply, or an appended tool-result message (whatever
`_process_tool_block` returned). -/
inductive PayloadEntry
  | user (text : String)
  | assistant (content : List AnthContent)
  | toolResult (content : List AnthContent)
deriving DecidableEq, Repr

/-- The tool-use test of `_handle_single_response_loop` (anthropic_agent.py
line 314): some content block has `type == "tool_use"`. -/
def anyToolUse (content : List AnthContent) : Bool :=
  content.any fun c => c.type == "tool_use"

/-- The agent's `tool_config` dict as `_get_max_recursions` reads it:
present or absent, with an optional `toolMaxRecursions` entry. -/
structure AnthToolConfig where
  toolMaxRecursions : Option Nat := Option.none
deriving DecidableEq, Repr

/-- `AnthropicAgent._get_max_recursions` (anthropic_agent.py lines
182-186): 1 without tool config, otherwise the configured
`toolMaxRecursions`, defaulting to `default_max_recursions` (5). -/
def get_max_recursions (tool_config : Option AnthToolConfig)
    (default_max_recursions : Nat) : Nat :=
  match tool_config with
  | Option.none => 1
  | some cfg => cfg.toolMaxRecursions.getD default_max_recursions

/-- The returned `ConversationMessage` of the non-streaming loop
(`ConversationMessage` itself is declared in the repository's `types`
module, not under `src/`; it is a plain role/content record).  `content`
is `none` when the loop exhausted its budget with tool use still
requested, since `llm_content` then keeps its initial Python `None`. -/
structure ConvMessage where
  role : String
  content : Option (List AnthContent)
deriving DecidableEq, Repr

/-- The `while` loop of `AnthropicAgent._handle_single_response_loop`
(anthropic_agent.py lines 308-324), with the remaining `max_recursions`
budget as the recursion measure (the source decrements it each
iteration and tests `> 0`).  `model` is the `handle_single_response` API
oracle (its reply's content), `tool` is `_process_tool_block`; both may
raise, which propagates.  Returns the final `llm_content` together with
the number of model calls performed. -/
def single_response_loop (model : List PayloadEntry → Except String (List AnthContent))
    (tool : List AnthContent → Except String PayloadEntry) :
    Nat → List PayloadEntry → Except String (Option (List AnthContent) × Nat)
  | 0, _ => .ok (Option.none, 0)
  | n + 1, msgs =>
    match model msgs with
    | .error e => .error e
    | .ok content =>
      if anyToolUse content then
        match tool content with
        | .error e => .error e
        | .ok tool_response =>
          match single_response_loop model tool n
              (msgs ++ [.assistant content, tool_response]) with
          | .error e => .error e
          | .ok (c, calls) => .ok (c, calls + 1)
      else
        .ok (some (if content.isEmpty
              then [{ type := "text", text := some "No final response generated" }]
              else content), 1)

/-- `AnthropicAgent._handle_single_response_loop` (anthropic_agent.py
lines 299-324): run the loop and wrap whatever `llm_content` holds into
an assistant `ConversationMessage`, also reporting the number of model
calls made. -/
def handle_single_response_loop
    (model : List PayloadEntry → Except String (List AnthContent))
    (tool : List AnthContent → Except String PayloadEntry)
    (max_recursions : Nat) (msgs : List PayloadEntry) :
    Except String (ConvMessage × Nat) :=
  match single_response_loop model tool max_recursions msgs with
  | .error e => .error e
  | .ok (content, calls) => .ok ({ role := "assistant", content := content }, calls)

/-! Shared lemmas about the dict model. -/

theorem dictGet?_dictSet_self {α : Type} (d : List (String × α)) (k : String) (v : α) :
    dictGet? (dictSet d k v) k = some v := by
  induction d with
  | nil => simp [dictSet, dictGet?]
  | cons hd tl ih =>
    obtain ⟨k', v'⟩ := hd
    by_cases h : k' == k
    · simp [dictSet, dictGet?, h]
    · simp only [dictSet, dictGet?, h, Bool.false_eq_true, if_false]
      exact ih

theorem dictGet?_dictSet_ne {α : Type} (d : List (String × α)) {k k' : String}
    (h : ¬ k' = k) (v : α) :
    dictGet? (dictSet d k v) k' = dictGet? d k' := by
  have hne : ¬ k = k' := fun hh => h hh.symm
  induction d with
  | nil => simp [dictSet, dictGet?, hne]
  | cons hd tl ih =>
    obtain ⟨k₀, v₀⟩ := hd
    by_cases h0 : k₀ == k
    · have hk0 : k₀ = k := by simpa using h0
      subst hk0
      simp [dictSet, dictGet?, hne]
    · simp only [dictSet, dictGet?, h0, Bool.false_eq_true, if_false]
      by_cases h1 : k₀ == k'
      · simp [dictGet?, h1]
      · simp [dictGet?, h1, ih]

theorem dictGet?_dictSet_isSome {α : Type} (d : List (String × α)) (k : String) (v : α)
    (hk : (dictGet? d k).isSome = true) (k' : String) :
    (dictGet? (dictSet d k v) k').isSome = (dictGet? d k').isSome := by
  by_cases h : k' = k
  · subst h
    simp [dictGet?_dictSet_self, hk]
  · rw [dictGet?_dictSet_ne d h]

/-! Claim theorems. -/

/-- C6: for every command string, the command sandbox reports
`success = true` iff the spawned process exits with code zero, including
the captured stdout, stderr and exit code in the result; when the
wall-clock timeout elapses it kills the process (second component `true`)
and returns `success = false` with an error naming the timeout. -/
theorem execute_command_success_iff_zero_exit (outcome : CmdOutcome)
    (command : String) (timeout : Int) :
    (∀ out err rc, outcome = .completes out err rc →
      execute_command true outcome command timeout
        = ({ success := rc == 0, stdout := out, stderr := err, return_code := rc,
             command := some command }, false))
    ∧ (outcome = .timesOut →
      execute_command true outcome command timeout
        = ({ success := false,
             error := some ("Command timed out after " ++ toString timeout ++ " seconds"),
             stdout := "", stderr := "", return_code := -1,
             command := some command }, true)) := by
  constructor
  · intro out err rc h
    subst h
    rfl
  · intro h
    subst h
    rfl

/-- Witness for C6, mirroring the spec's two scenarios: `echo hi`
completing with exit code 0 and output "hi", and `sleep 5` against a
1-second timeout being killed with a timeout error. -/
theorem execute_command_success_iff_zero_exit_witness :
    execute_command true (.completes "hi\n" "" 0) "echo hi" 30
      = ({ success := true, stdout := "hi\n", stderr := "", return_code := 0,
           command := some "echo hi" }, false)
    ∧ execute_command true .timesOut "sleep 5" 1
      = ({ success := false,
           error := some "Command timed out after 1 seconds",
           stdout := "", stderr := "", return_code := -1,
           command := some "sleep 5" }, true) :=
  ⟨(execute_command_success_iff_zero_exit (.completes "hi\n" "" 0) "echo hi" 30).1
      "hi\n" "" 0 rfl,
   (execute_command_success_iff_zero_exit .timesOut "sleep 5" 1).2 rfl⟩

/-- A lead agent whose `tool_config` attribute the caller already set to
a truthy value: the configuration that claim C2 says must be rejected at
construction time. -/
def callerConfiguredLead : LeadAgent :=
  { tool_config := some (.callerSupplied true) }

/-- C2 (code bug): constructing a `SupervisorAgent` whose lead already
has a truthy `tool_config` does NOT raise — `validate`'s intended
`ValueError` is raised inside the `try` whose `except Exception: pass`
swallows it — and `_configure_supervisor_tools` then silently overwrites
the caller-supplied `tool_config` with the supervisor's own wiring
(`send_messages` plus `toolMaxRecursions = 40`).  The claim (and the
source's own comment, "we reject to avoid double-wiring tools") describe
the intended behaviour; the code loses the rejection. -/
theorem supervisor_init_swallows_tool_config_error :
    supervisor_agent_init { lead_agent := callerConfiguredLead }
      = .ok { name := "lead", description := "",
              lead_agent :=
                { callerConfiguredLead with
                    tool_config := some (.supervisorWired 1 DEFAULT_TOOL_MAX_RECURSIONS) } } := rfl

/-- A one-agent team built through `add_agent`, used as the C1 failing
input's context. -/
def teamOnlyA : OrchState :=
  add_agent {} { name := "A", description := "generic worker",
                 processRequest := fun _ => .ok "done" }

/-- A task whose `assigned_agent` names no registered agent. -/
def ghostTask : Task :=
  { id := "task-1", description := "summarize the findings",
    assigned_agent := some "ghost" }

/-- C1 (code bug): `execute_tasks_sequential` does not return one
`TaskResult` per input task on every input.  For a task whose
`assigned_agent` is truthy but unregistered, the `except` branch of
`_execute_single_task` builds the intended descriptive failure result
(still visible in `completed_tasks` below), but the `finally` cleanup's
`agent_task_assignments[task.assigned_agent]` dict subscript raises
`KeyError`, which replaces the return: the whole run aborts and no result
list is produced. -/
theorem execute_tasks_sequential_keyerror_aborts :
    (match execute_tasks_sequential teamOnlyA [ghostTask] with
      | .error (e, _) => e
      | .ok _ => "") = "KeyError: ghost"
    ∧ (match execute_tasks_sequential teamOnlyA [ghostTask] with
      | .error (_, st') => dictGet? st'.completed_tasks "task-1"
      | .ok _ => Option.none)
      = some { task_id := "task-1", success := false, output := TaskOutput.none,
               error := some "No agent found for task: ghost",
               metaAgent := some "ghost",
               metaDescription := "summarize the findings" } :=
  ⟨rfl, rfl⟩

/-- The tool-recursion loop under a model that always requests a tool:
with every model call succeeding with a tool-use reply and every tool
call succeeding, the loop consumes its entire budget, makes exactly one
model call per budget unit, and ends with `llm_content` still `None`. -/
theorem single_response_loop_exhausts_budget
    (model : List PayloadEntry → Except String (List AnthContent))
    (tool : List AnthContent → Except String PayloadEntry)
    (hmodel : ∀ ms, ∃ c, model ms = .ok c ∧ anyToolUse c = true)
    (htool : ∀ c, ∃ r, tool c = .ok r) :
    ∀ n msgs, single_response_loop model tool n msgs = .ok (Option.none, n) := by
  intro n
  induction n with
  | zero => intro msgs; rfl
  | succ n ih =>
    intro msgs
    obtain ⟨c, hc, htu⟩ := hmodel msgs
    obtain ⟨r, hr⟩ := htool c
    simp only [single_response_loop, hc, htu, if_true, hr, ih]

/-- C4: in the non-streaming tool loop, a model whose every reply
contains a tool-use part makes the loop perform exactly `maxRecursions`
model calls (as computed by `_get_max_recursions` from the tool config),
after which it exits and returns a final assistant `ConversationMessage`
without raising — its content is the initial `None`, i.e. whatever text
is available, here none at all. -/
theorem single_response_loop_halts_at_max_recursions
    (model : List PayloadEntry → Except String (List AnthContent))
    (tool : List AnthContent → Except String PayloadEntry)
    (cfg : AnthToolConfig) (msgs : List PayloadEntry)
    (hmodel : ∀ ms, ∃ c, model ms = .ok c ∧ anyToolUse c = true)
    (htool : ∀ c, ∃ r, tool c = .ok r) :
    handle_single_response_loop model tool (get_max_recursions (some cfg) 5) msgs
      = .ok ({ role := "assistant", content := Option.none },
             get_max_recursions (some cfg) 5) := by
  unfold handle_single_response_loop
  rw [single_response_loop_exhausts_budget model tool hmodel htool]

/-- A scripted model that always replies with a single tool-use block,
and a tool handler that always succeeds. -/
def alwaysToolModel : List PayloadEntry → Except String (List AnthContent) :=
  fun _ => .ok [{ type := "tool_use" }]

/-- Tool handler oracle that always returns an empty tool-result
message. -/
def alwaysOkTool : List AnthContent → Except String PayloadEntry :=
  fun _ => .ok (.toolResult [])

/-- Witness for C4: with `toolMaxRecursions = 3` the loop makes exactly 3
model calls and returns the empty-content assistant message. -/
theorem single_response_loop_halts_witness :
    handle_single_response_loop alwaysToolModel alwaysOkTool
        (get_max_recursions (some { toolMaxRecursions := some 3 }) 5) [.user "hi"]
      = .ok ({ role := "assistant", content := Option.none }, 3) :=
  single_response_loop_halts_at_max_recursions alwaysToolModel alwaysOkTool
    { toolMaxRecursions := some 3 } [.user "hi"]
    (fun _ => ⟨[{ type := "tool_use" }], rfl, rfl⟩)
    (fun _ => ⟨.toolResult [], rfl⟩)

/-- C3: whenever the classifier agent is absent, raises, or returns a
reply on which the parse raises, decomposition propagates no error and
returns exactly the fallback split: the input split on `'.'`, fragments
that are empty (after stripping) discarded, and one task per remaining
fragment carrying the stripped fragment, no assigned agent, and as
priority the fragment's order index in the split. -/
theorem split_input_fallback_on_failure (st : OrchState) (user_input : String)
    (h : st.supervisor = Option.none
      ∨ (∃ sup e, st.supervisor = some sup ∧
          sup.processRequest (create_task_splitting_prompt (get_agent_descriptions st) user_input)
            = .error e)
      ∨ (∃ sup reply e, st.supervisor = some sup ∧
          sup.processRequest (create_task_splitting_prompt (get_agent_descriptions st) user_input)
            = .ok reply ∧ st.parseResponse reply = .error e)) :
    split_input_into_tasks st user_input = simple_task_splitting st.freshIds user_input
    ∧ (simple_task_splitting st.freshIds user_input).map
        (fun t => (t.description, t.assigned_agent, t.priority))
      = (pySplitChar '.' user_input).enum.filterMap
          (fun p => if (pyStrip p.2).isEmpty then Option.none
            else some (pyStrip p.2, (Option.none : Option String), (p.1 : Int))) := by
  constructor
  · unfold split_input_into_tasks
    rcases h with h | ⟨sup, e, hs, hp⟩ | ⟨sup, reply, e, hs, hp, hq⟩
    · rw [h]
    · rw [hs]
      simp only [hp]
    · rw [hs]
      simp only [hp, hq]
  · unfold simple_task_splitting
    rw [List.map_filterMap]
    apply List.filterMap_congr
    intro p _
    by_cases hp : (pyStrip p.2).isEmpty
    · simp [hp]
    · simp [hp]

/-- A team whose classifier agent always raises, exercising the fallback
splitter. -/
def brokenClassifierTeam : OrchState :=
  add_supervisor
    (add_agent {} { name := "A", description := "generic worker",
                    processRequest := fun _ => .ok "done" })
    { name := "Supervisor", description := "classifier",
      processRequest := fun _ => .error "model unavailable" }

/-- Witness for C3: with a raising classifier, "First task. Second task"
decomposes to the fallback split, two unassigned tasks with priorities 0
and 1; and "a..b" shows the priorities are raw split positions (the empty
middle fragment is discarded, the fragment "b" keeps index 2). -/
theorem split_input_fallback_on_failure_witness :
    (split_input_into_tasks brokenClassifierTeam "First task. Second task"
        = simple_task_splitting brokenClassifierTeam.freshIds "First task. Second task"
      ∧ (simple_task_splitting brokenClassifierTeam.freshIds "First task. Second task").map
          (fun t => (t.description, t.assigned_agent, t.priority))
        = (pySplitChar '.' "First task. Second task").enum.filterMap
            (fun p => if (pyStrip p.2).isEmpty then Option.none
              else some (pyStrip p.2, (Option.none : Option String), (p.1 : Int))))
    ∧ (simple_task_splitting brokenClassifierTeam.freshIds "First task. Second task").map
        (fun t => (t.description, t.assigned_agent, t.priority))
      = [("First task", Option.none, 0), ("Second task", Option.none, 1)]
    ∧ (simple_task_splitting brokenClassifierTeam.freshIds "a..b").map
        (fun t => (t.description, t.assigned_agent, t.priority))
      = [("a", Option.none, 0), ("b", Option.none, 2)] :=
  ⟨split_input_fallback_on_failure brokenClassifierTeam "First task. Second task"
      (Or.inr (Or.inl ⟨_, _, rfl, rfl⟩)),
   by rfl, by rfl⟩

/-- Gathering the fan-out: when every matched pair's agent call
succeeds, the traversal returns the labeled replies in pair order. -/
theorem mapM_send_message_ok (l : List (TeamAgent × DispatchMessage))
    (h : ∀ p ∈ l, ∃ s, p.1.reply p.2.content = .ok s) :
    l.mapM (fun p => send_message p.1 p.2.content)
      = .ok (l.map fun p => p.1.name ++ ": " ++ ((p.1.reply p.2.content).toOption.getD "")) := by
  induction l with
  | nil => rfl
  | cons hd tl ih =>
    obtain ⟨s, hs⟩ := h hd (by simp)
    have htl := ih fun p hp => h p (by simp [hp])
    have hsend : send_message hd.1 hd.2.content = .ok (hd.1.name ++ ": " ++ s) := by
      simp [send_message, hs]
    rw [List.mapM_cons, hsend, htl, List.map_cons, hs]
    rfl

/-- C8: when the dispatch tool is invoked with a list of
recipient/content pairs, each recipient is resolved against the team by
exact name equality (`matchedDispatch`); provided every matched agent's
call succeeds, all their results are awaited and the tool returns the
concatenation, over the matched pairs in order, of each matched agent's
reply prefixed with that agent's name.  (The fan-out is concurrent in the
source — one thread per pair, `asyncio.gather`ed — which is modelled here
by its deterministic fan-in value, `gather` preserving list order.) -/
theorem send_messages_concatenates_labeled_replies
    (team : List TeamAgent) (messages : List DispatchMessage)
    (hok : ∀ p ∈ matchedDispatch team messages, ∃ s, p.1.reply p.2.content = .ok s)
    (hne : matchedDispatch team messages ≠ []) :
    send_messages team messages
      = .ok (String.join ((matchedDispatch team messages).map
          fun p => p.1.name ++ ": " ++ ((p.1.reply p.2.content).toOption.getD ""))) := by
  unfold send_messages
  rw [if_neg (by simpa [List.isEmpty_iff] using hne)]
  rw [mapM_send_message_ok _ hok]

/-- Two scripted team members for the C8 witness. -/
def teamMemberA : TeamAgent := { name := "A", reply := fun c => .ok ("reply-to-" ++ c) }

/-- Second scripted team member for the C8 witness. -/
def teamMemberB : TeamAgent := { name := "B", reply := fun c => .ok ("reply-to-" ++ c) }

/-- Witness for C8, mirroring the spec's scenario: dispatching
`\x7brecipient: "A", content: "x"\x7d, \x7brecipient: "B", content: "y"\x7d`
to a two-member team returns both agents' labeled outputs,
concatenated. -/
theorem send_messages_concatenates_labeled_replies_witness :
    send_messages [teamMemberA, teamMemberB]
        [{ recipient := "A", content := "x" }, { recipient := "B", content := "y" }]
      = .ok "A: reply-to-xB: reply-to-y" := by
  have h := send_messages_concatenates_labeled_replies
    [teamMemberA, teamMemberB]
    [{ recipient := "A", content := "x" }, { recipient := "B", content := "y" }]
    (by
      intro p hp
      have hm : matchedDispatch [teamMemberA, teamMemberB]
          [{ recipient := "A", content := "x" }, { recipient := "B", content := "y" }]
          = [(teamMemberA, { recipient := "A", content := "x" }),
             (teamMemberB, { recipient := "B", content := "y" })] := rfl
      rw [hm] at hp
      simp only [List.mem_cons, List.mem_singleton] at hp
      rcases hp with rfl | rfl | hp
      · exact ⟨_, rfl⟩
      · exact ⟨_, rfl⟩
      · cases hp)
    (by
      have hm : matchedDispatch [teamMemberA, teamMemberB]
          [{ recipient := "A", content := "x" }, { recipient := "B", content := "y" }]
          = [(teamMemberA, { recipient := "A", content := "x" }),
             (teamMemberB, { recipient := "B", content := "y" })] := rfl
      rw [hm]
      exact List.cons_ne_nil _ _)
  exact h.trans rfl

/-- A found assigned agent is a registered agent carrying exactly the
assigned name. -/
theorem findAssignedAgent_name {agents : List OAgent} {assigned : Option String}
    {a : OAgent} (h : findAssignedAgent agents assigned = some a) :
    assigned = some a.name ∧ a ∈ agents := by
  unfold findAssignedAgent at h
  cases assigned with
  | none => cases h
  | some n =>
    have hmem := List.mem_of_find?_eq_some h
    have hp := List.find?_some h
    have : a.name = n := by simpa using hp
    exact ⟨by rw [this], hmem⟩

/-- State effects of the `try` body when it completes: the resolved agent
was found, it was marked busy, and nothing else in the state changed
except the call log. -/
theorem body_ok_facts {st : OrchState} {t : Task} {o : TaskOutput} {a : OAgent}
    {s : OrchState} (h : execute_single_task_body st t = .ok (o, a, s)) :
    findAssignedAgent st.agents t.assigned_agent = some a
    ∧ s.agent_availability = dictSet st.agent_availability a.name false
    ∧ s.agent_task_assignments = st.agent_task_assignments
    ∧ s.completed_tasks = st.completed_tasks
    ∧ s.tasks = st.tasks := by
  unfold execute_single_task_body at h
  cases hf : findAssignedAgent st.agents t.assigned_agent <;> rw [hf] at h
  · exact absurd h (by simp)
  · case some a' =>
    simp only [] at h
    split at h
    · split at h <;>
      · simp only [Except.ok.injEq, Prod.mk.injEq] at h
        obtain ⟨-, rfl, rfl⟩ := h
        exact ⟨rfl, rfl, rfl, rfl, rfl⟩
    · split at h
      · exact absurd h (by simp)
      · simp only [Except.ok.injEq, Prod.mk.injEq] at h
        obtain ⟨-, rfl, rfl⟩ := h
        exact ⟨rfl, rfl, rfl, rfl, rfl⟩

/-- State effects of the `try` body when it raises: assignments, recorded
results and the task dict are untouched; availability is untouched when
no agent was found (the raise precedes the busy-marking) and shows the
found agent as busy otherwise. -/
theorem body_error_facts {st : OrchState} {t : Task} {e : String} {s : OrchState}
    (h : execute_single_task_body st t = .error (e, s)) :
    s.agent_task_assignments = st.agent_task_assignments
    ∧ s.completed_tasks = st.completed_tasks
    ∧ s.tasks = st.tasks
    ∧ ((findAssignedAgent st.agents t.assigned_agent = Option.none
          ∧ s.agent_availability = st.agent_availability)
        ∨ (∃ a, findAssignedAgent st.agents t.assigned_agent = some a
            ∧ s.agent_availability = dictSet st.agent_availability a.name false)) := by
  unfold execute_single_task_body at h
  cases hf : findAssignedAgent st.agents t.assigned_agent <;> rw [hf] at h
  · simp only [Except.error.injEq, Prod.mk.injEq] at h
    obtain ⟨-, rfl⟩ := h
    exact ⟨rfl, rfl, rfl, Or.inl ⟨rfl, rfl⟩⟩
  · case some a' =>
    simp only [] at h
    split at h
    · split at h <;> exact absurd h (by simp)
    · split at h
      · simp only [Except.error.injEq, Prod.mk.injEq] at h
        obtain ⟨-, rfl⟩ := h
        exact ⟨rfl, rfl, rfl, Or.inr ⟨a', rfl, rfl⟩⟩
      · exact absurd h (by simp)

/-- When the task's truthy assignee is registered, the guaranteed cleanup
completes: it returns the in-flight result unchanged, releases the
assignee's availability, touches no other agent's availability, and
preserves the assignment keys, the call log and the recorded results. -/
theorem finally_ok_facts (st : OrchState) (task : Task) (r : TaskResult)
    (hreg : pyTruthyStr task.assigned_agent = true →
      (dictGet? st.agent_task_assignments (pyStrOpt task.assigned_agent)).isSome = true) :
    ∃ st', execute_single_task_finally st task r = .ok (r, task, st')
      ∧ (∀ k, (dictGet? st'.agent_task_assignments k).isSome
            = (dictGet? st.agent_task_assignments k).isSome)
      ∧ st'.agentCallLog = st.agentCallLog
      ∧ st'.completed_tasks = st.completed_tasks
      ∧ st'.agent_availability
          = (if pyTruthyStr task.assigned_agent
             then dictSet st.agent_availability (pyStrOpt task.assigned_agent) true
             else st.agent_availability) := by
  unfold execute_single_task_finally
  by_cases ht : pyTruthyStr task.assigned_agent = true
  · obtain ⟨ids, hids⟩ := Option.isSome_iff_exists.mp (hreg ht)
    refine ⟨{ st with
        agent_availability := dictSet st.agent_availability (pyStrOpt task.assigned_agent) true,
        agent_task_assignments :=
          dictSet st.agent_task_assignments (pyStrOpt task.assigned_agent) (ids.erase task.id) },
      ?_, ?_, rfl, rfl, ?_⟩
    · simp only [ht, if_true, hids]
    · intro k
      exact dictGet?_dictSet_isSome _ _ _ (by simp [hids]) k
    · simp [ht]
  · have ht' : pyTruthyStr task.assigned_agent = false := by
      simpa using ht
    refine ⟨st, ?_, fun k => rfl, rfl, rfl, ?_⟩
    · simp [ht']
    · simp [ht']

/-- Availability of the state carried out of the cleanup, whether it
completes or raises `KeyError`: the truthy assignee is released (the
availability write precedes the raising dict subscript), everything else
untouched. -/
theorem finally_availability (st : OrchState) (task : Task) (r : TaskResult) :
    (match execute_single_task_finally st task r with
     | .ok (_, _, s) => s.agent_availability
     | .error (_, _, s) => s.agent_availability)
    = (if pyTruthyStr task.assigned_agent
       then dictSet st.agent_availability (pyStrOpt task.assigned_agent) true
       else st.agent_availability) := by
  unfold execute_single_task_finally
  by_cases ht : pyTruthyStr task.assigned_agent = true
  · simp only [ht, if_true]
    cases hg : dictGet? st.agent_task_assignments (pyStrOpt task.assigned_agent) <;>
      simp [hg]
  · have ht' : pyTruthyStr task.assigned_agent = false := by simpa using ht
    simp [ht']

/-- When the task's truthy assignee (if any) is registered in the
assignment map, `_execute_single_task` returns normally: one result
carrying the task's id, failure information recorded exactly when the
body raised, and the assignment keys preserved. -/
theorem execute_single_task_ok (st : OrchState) (task : Task)
    (hreg : pyTruthyStr task.assigned_agent = true →
      (dictGet? st.agent_task_assignments (pyStrOpt task.assigned_agent)).isSome = true) :
    ∃ r t' st', execute_single_task st task = .ok (r, t', st')
      ∧ r.task_id = task.id
      ∧ (r.success = false → r.error.isSome = true ∧ r.error = t'.error_message
          ∧ t'.status = TaskStatus.failed)
      ∧ t'.id = task.id
      ∧ (∀ k, (dictGet? st'.agent_task_assignments k).isSome
            = (dictGet? st.agent_task_assignments k).isSome) := by
  cases hbody : execute_single_task_body st { task with status := TaskStatus.running } with
  | ok v =>
    obtain ⟨output, agent, stA⟩ := v
    obtain ⟨-, -, hassign, -, -⟩ := body_ok_facts hbody
    obtain ⟨st', hfin, hkeys, -, -, -⟩ :=
      finally_ok_facts
        { stA with
          completed_tasks := dictSet stA.completed_tasks task.id
            { task_id := task.id, success := true, output := output,
              metaAgent := some agent.name, metaDescription := task.description }
          tasks := dictSet stA.tasks task.id
            { task with status := TaskStatus.completed, output_data := some output } }
        { task with status := TaskStatus.completed, output_data := some output }
        { task_id := task.id, success := true, output := output,
          metaAgent := some agent.name, metaDescription := task.description }
        (by simpa [hassign] using hreg)
    refine ⟨{ task_id := task.id, success := true, output := output,
              metaAgent := some agent.name, metaDescription := task.description },
      { task with status := TaskStatus.completed, output_data := some output },
      st', ?_, rfl, ?_, rfl, ?_⟩
    · simp only [execute_single_task, hbody]
      exact hfin
    · intro hfalse
      simp at hfalse
    · intro k
      rw [hkeys k]
      simp [hassign]
  | error v =>
    obtain ⟨e, stA⟩ := v
    obtain ⟨hassign, -, -, -⟩ := body_error_facts hbody
    obtain ⟨st', hfin, hkeys, -, -, -⟩ :=
      finally_ok_facts
        { stA with
          completed_tasks := dictSet stA.completed_tasks task.id
            { task_id := task.id, success := false, output := TaskOutput.none, error := some e,
              metaAgent := task.assigned_agent, metaDescription := task.description }
          tasks := dictSet stA.tasks task.id
            { task with status := TaskStatus.failed, error_message := some e } }
        { task with status := TaskStatus.failed, error_message := some e }
        { task_id := task.id, success := false, output := TaskOutput.none, error := some e,
          metaAgent := task.assigned_agent, metaDescription := task.description }
        (by simpa [hassign] using hreg)
    refine ⟨{ task_id := task.id, success := false, output := TaskOutput.none, error := some e,
              metaAgent := task.assigned_agent, metaDescription := task.description },
      { task with status := TaskStatus.failed, error_message := some e },
      st', ?_, rfl, ?_, rfl, ?_⟩
    · simp only [execute_single_task, hbody]
      exact hfin
    · intro _
      exact ⟨rfl, rfl, rfl⟩
    · intro k
      rw [hkeys k]
      simp [hassign]

/-- Looking up after busy-marking followed by release: the marked agent
reads `true`, everyone else reads as before. -/
theorem dictGet?_set_after_busy (avail : List (String × Bool)) (nm name : String) :
    dictGet? (dictSet (dictSet avail nm false) nm true) name
      = if name = nm then some true else dictGet? avail name := by
  by_cases hn : name = nm
  · subst hn
    simp [dictGet?_dictSet_self]
  · rw [dictGet?_dictSet_ne _ hn, dictGet?_dictSet_ne _ hn, if_neg hn]

/-- Looking up after a release alone. -/
theorem dictGet?_set_release (avail : List (String × Bool)) (nm name : String) :
    dictGet? (dictSet avail nm true) name
      = if name = nm then some true else dictGet? avail name := by
  by_cases hn : name = nm
  · subst hn
    simp [dictGet?_dictSet_self]
  · rw [dictGet?_dictSet_ne _ hn, if_neg hn]

/-- Availability bookkeeping for the raising branch of the body: whatever
the cleanup outcome, the final read obeys the release formula. -/
theorem avail_after_error_case (st stA : OrchState) (task : Task) (name : String)
    (hcase : (findAssignedAgent st.agents task.assigned_agent = Option.none
          ∧ stA.agent_availability = st.agent_availability)
        ∨ (∃ a, findAssignedAgent st.agents task.assigned_agent = some a
            ∧ stA.agent_availability = dictSet st.agent_availability a.name false))
    (hNames : ∀ a ∈ st.agents, a.name ≠ "")
    {sAvail : List (String × Bool)}
    (hA : sAvail = (if pyTruthyStr task.assigned_agent
             then dictSet stA.agent_availability (pyStrOpt task.assigned_agent) true
             else stA.agent_availability)) :
    dictGet? sAvail name
      = if pyTruthyStr task.assigned_agent = true ∧ name = pyStrOpt task.assigned_agent
        then some true
        else dictGet? st.agent_availability name := by
  subst hA
  rcases hcase with ⟨hfind, havail⟩ | ⟨a, hfind, havail⟩
  · by_cases ht : pyTruthyStr task.assigned_agent = true
    · simp only [ht, if_true, havail, dictGet?_set_release]
      simp [ht]
    · have ht' : pyTruthyStr task.assigned_agent = false := by simpa using ht
      simp [ht', havail]
  · obtain ⟨hassigned0, hmem⟩ := findAssignedAgent_name hfind
    have hassigned : task.assigned_agent = some a.name := hassigned0
    have hemp : a.name.isEmpty = false := by
      rw [Bool.eq_false_iff]
      intro hemp
      exact hNames a hmem ((String.isEmpty_iff _).mp hemp)
    have ht2 : pyTruthyStr (some a.name) = true := by simp [pyTruthyStr, hemp]
    rw [hassigned, havail]
    rw [show pyStrOpt (some a.name) = a.name from rfl]
    simp [ht2, dictGet?_set_after_busy]

/-- The state as mutated by `_execute_single_task`, whether it returns or
raises (in Python the orchestrator object keeps its mutations either
way). -/
def stateAfterSingleTask (st : OrchState) (task : Task) : OrchState :=
  match execute_single_task st task with
  | .ok (_, _, s) => s
  | .error (_, _, s) => s

/-- C7: for every task execution over a team of (nonempty-named) agents,
the availability map after `_execute_single_task` is the input map with
exactly one change: when the task has a (truthy) assigned agent, that
agent's flag is `true` — released in the guaranteed cleanup regardless of
completion, failure, or a raised exception (even the cleanup's own
`KeyError` happens after the release).  No other agent's flag is touched,
so an agent is busy only between the start and the end of its own task's
execution. -/
theorem agent_availability_released_after_task (st : OrchState) (task : Task)
    (hNames : ∀ a ∈ st.agents, a.name ≠ "") (name : String) :
    dictGet? (stateAfterSingleTask st task).agent_availability name
      = if pyTruthyStr task.assigned_agent = true ∧ name = pyStrOpt task.assigned_agent
        then some true
        else dictGet? st.agent_availability name := by
  cases hbody : execute_single_task_body st { task with status := TaskStatus.running } with
  | ok v =>
    obtain ⟨output, agent, stA⟩ := v
    obtain ⟨hfind0, havail, -, -, -⟩ := body_ok_facts hbody
    have hfind : findAssignedAgent st.agents task.assigned_agent = some agent := hfind0
    have hfa := finally_availability
      { stA with
        completed_tasks := dictSet stA.completed_tasks task.id
          { task_id := task.id, success := true, output := output,
            metaAgent := some agent.name, metaDescription := task.description }
        tasks := dictSet stA.tasks task.id
          { task with status := TaskStatus.completed, output_data := some output } }
      { task with status := TaskStatus.completed, output_data := some output }
      { task_id := task.id, success := true, output := output,
        metaAgent := some agent.name, metaDescription := task.description }
    cases hout : execute_single_task_finally
        { stA with
          completed_tasks := dictSet stA.completed_tasks task.id
            { task_id := task.id, success := true, output := output,
              metaAgent := some agent.name, metaDescription := task.description }
          tasks := dictSet stA.tasks task.id
            { task with status := TaskStatus.completed, output_data := some output } }
        { task with status := TaskStatus.completed, output_data := some output }
        { task_id := task.id, success := true, output := output,
          metaAgent := some agent.name, metaDescription := task.description } with
    | ok w =>
      obtain ⟨wr, wt, sOut⟩ := w
      rw [hout] at hfa
      simp only [stateAfterSingleTask, execute_single_task, hbody, hout]
      exact avail_after_error_case st stA task name (Or.inr ⟨agent, hfind, havail⟩) hNames
        (by simpa using hfa)
    | error w =>
      obtain ⟨we, wt, sOut⟩ := w
      rw [hout] at hfa
      simp only [stateAfterSingleTask, execute_single_task, hbody, hout]
      exact avail_after_error_case st stA task name (Or.inr ⟨agent, hfind, havail⟩) hNames
        (by simpa using hfa)
  | error v =>
    obtain ⟨e, stA⟩ := v
    obtain ⟨-, -, -, hcase0⟩ := body_error_facts hbody
    have hcase : (findAssignedAgent st.agents task.assigned_agent = Option.none
          ∧ stA.agent_availability = st.agent_availability)
        ∨ (∃ a, findAssignedAgent st.agents task.assigned_agent = some a
            ∧ stA.agent_availability = dictSet st.agent_availability a.name false) := hcase0
    have hfa := finally_availability
      { stA with
        completed_tasks := dictSet stA.completed_tasks task.id
          { task_id := task.id, success := false, output := TaskOutput.none, error := some e,
            metaAgent := task.assigned_agent, metaDescription := task.description }
        tasks := dictSet stA.tasks task.id
          { task with status := TaskStatus.failed, error_message := some e } }
      { task with status := TaskStatus.failed, error_message := some e }
      { task_id := task.id, success := false, output := TaskOutput.none, error := some e,
        metaAgent := task.assigned_agent, metaDescription := task.description }
    cases hout : execute_single_task_finally
        { stA with
          completed_tasks := dictSet stA.completed_tasks task.id
            { task_id := task.id, success := false, output := TaskOutput.none, error := some e,
              metaAgent := task.assigned_agent, metaDescription := task.description }
          tasks := dictSet stA.tasks task.id
            { task with status := TaskStatus.failed, error_message := some e } }
        { task with status := TaskStatus.failed, error_message := some e }
        { task_id := task.id, success := false, output := TaskOutput.none, error := some e,
          metaAgent := task.assigned_agent, metaDescription := task.description } with
    | ok w =>
      obtain ⟨wr, wt, sOut⟩ := w
      rw [hout] at hfa
      simp only [stateAfterSingleTask, execute_single_task, hbody, hout]
      exact avail_after_error_case st stA task name hcase hNames (by simpa using hfa)
    | error w =>
      obtain ⟨we, wt, sOut⟩ := w
      rw [hout] at hfa
      simp only [stateAfterSingleTask, execute_single_task, hbody, hout]
      exact avail_after_error_case st stA task name hcase hNames (by simpa using hfa)
/-- Witness for C7: executing a task assigned to the registered agent
"A" leaves "A" released afterwards, and even the aborting ghost-task run
releases (indeed creates) the "ghost" availability entry before the
cleanup's `KeyError`. -/
theorem agent_availability_released_after_task_witness :
    dictGet? (stateAfterSingleTask teamOnlyA
        { id := "w7", description := "ponder quietly", assigned_agent := some "A" }).agent_availability "A"
      = some true
    ∧ dictGet? (stateAfterSingleTask teamOnlyA ghostTask).agent_availability "ghost"
      = some true := by
  constructor
  · rw [agent_availability_released_after_task teamOnlyA
      { id := "w7", description := "ponder quietly", assigned_agent := some "A" }
      (by decide) "A"]
    decide
  · rw [agent_availability_released_after_task teamOnlyA ghostTask (by decide) "ghost"]
    decide

/-- An agent that raises an exception whose message is the empty
string. -/
def agentRaisesEmpty : OAgent :=
  { name := "A", description := "", processRequest := fun _ => .error "" }

/-- Team of the single empty-message-raising agent. -/
def teamRaisesEmpty : OrchState := add_agent {} agentRaisesEmpty

/-- First task for the C5 counterexample. -/
def taskPonder : Task :=
  { id := "t1", description := "ponder the question", assigned_agent := some "A" }

/-- Second task for the C5 counterexample. -/
def taskReflect : Task :=
  { id := "t2", description := "reflect further", assigned_agent := some "A" }

/-- A healthy one-agent team for the aborting half of the C5
counterexample. -/
def teamOnlyB : OrchState :=
  add_agent {} { name := "B", description := "", processRequest := fun _ => .ok "fine" }

/-- A task assigned to an unregistered agent name. -/
def ghostTask2 : Task :=
  { id := "g1", description := "collate notes", assigned_agent := some "phantom" }

/-- A task that would run after the ghost task. -/
def taskDraft : Task :=
  { id := "t3", description := "draft the reply", assigned_agent := some "B" }

/-- Counterexample to C5 as stated.  First half: an agent that raises an
exception with an empty message yields `TaskResult.error = some ""` — an
error string that is not non-empty.  Second half: a failing task whose
truthy assignee is unregistered makes the cleanup raise `KeyError`, so
the run aborts and the subsequent task `t3` is never executed (no result
list at all is returned). -/
theorem task_failure_empty_error_or_abort_counterexample :
    (match execute_tasks_sequential teamRaisesEmpty [taskPonder, taskReflect] with
      | .ok (rs, _, _) => rs.map fun r => (r.success, r.error)
      | .error _ => []) = [(false, some ""), (false, some "")]
    ∧ (match execute_tasks_sequential teamOnlyB [ghostTask2, taskDraft] with
      | .error (e, _) => e
      | .ok _ => "") = "KeyError: phantom" :=
  ⟨rfl, rfl⟩

/-- The execution loop under registered assignees: one result per task in
order, failure information recorded per failed task, assignment keys
preserved. -/
theorem execute_tasks_loop_ok (tasks : List Task) : ∀ st : OrchState,
    (∀ t ∈ tasks, pyTruthyStr t.assigned_agent = true →
      (dictGet? st.agent_task_assignments (pyStrOpt t.assigned_agent)).isSome = true) →
    ∃ rs ts' st', execute_tasks_loop tasks st = .ok (rs, ts', st')
      ∧ rs.map (·.task_id) = tasks.map (·.id)
      ∧ List.Forall₂ (fun (r : TaskResult) (t' : Task) =>
          r.success = false → r.error.isSome = true ∧ r.error = t'.error_message
            ∧ t'.status = TaskStatus.failed) rs ts'
      ∧ (∀ k, (dictGet? st'.agent_task_assignments k).isSome
            = (dictGet? st.agent_task_assignments k).isSome) := by
  induction tasks with
  | nil =>
    intro st _
    exact ⟨[], [], st, rfl, rfl, List.Forall₂.nil, fun k => rfl⟩
  | cons t ts ih =>
    intro st hreg
    obtain ⟨r, t', st1, hexec, hid, himp, htid, hkeys⟩ :=
      execute_single_task_ok st t (hreg t (by simp))
    obtain ⟨rs, ts', st2, hloop, hmap, hfa, hkeys2⟩ :=
      ih st1 (fun u hu htr => by rw [hkeys]; exact hreg u (by simp [hu]) htr)
    refine ⟨r :: rs, t' :: ts', st2, ?_, ?_, List.Forall₂.cons himp hfa, ?_⟩
    · simp only [execute_tasks_loop, hexec, hloop]
    · simp [hmap, hid]
    · intro k
      rw [hkeys2 k, hkeys k]

/-- C5 (amended): provided every task's truthy assigned agent is
registered in the assignment map (the unregistered case aborts the run
with the cleanup `KeyError` of the counterexample), the sequential
engine returns one result per task in order; a task whose execution
raises yields `success = false` with `error` equal to the raised
exception's message string (so non-empty exactly when that message is)
and status `Failed`, and every subsequent task is still executed. -/
theorem execute_tasks_partial_failure_amended (st : OrchState) (tasks : List Task)
    (hreg : ∀ t ∈ tasks, pyTruthyStr t.assigned_agent = true →
      (dictGet? st.agent_task_assignments (pyStrOpt t.assigned_agent)).isSome = true) :
    ∃ rs ts' st', execute_tasks_sequential st tasks = .ok (rs, ts', st')
      ∧ rs.map (·.task_id) = tasks.map (·.id)
      ∧ List.Forall₂ (fun (r : TaskResult) (t' : Task) =>
          r.success = false → r.error.isSome = true ∧ r.error = t'.error_message
            ∧ t'.status = TaskStatus.failed) rs ts' := by
  unfold execute_tasks_sequential
  obtain ⟨rs, ts', st', h1, h2, h3, -⟩ :=
    execute_tasks_loop_ok tasks
      { st with tasks := tasks.foldl (fun d t => dictSet d t.id t) st.tasks }
      (fun t ht => hreg t ht)
  exact ⟨rs, ts', st', h1, h2, h3⟩

/-- Witness for C5 (amended): the empty-message team's two tasks both
yield results, in order, with failure recorded. -/
theorem execute_tasks_partial_failure_amended_witness :
    ∃ rs ts' st',
      execute_tasks_sequential teamRaisesEmpty [taskPonder, taskReflect] = .ok (rs, ts', st')
      ∧ rs.map (·.task_id) = [taskPonder, taskReflect].map (·.id)
      ∧ List.Forall₂ (fun (r : TaskResult) (t' : Task) =>
          r.success = false → r.error.isSome = true ∧ r.error = t'.error_message
            ∧ t'.status = TaskStatus.failed) rs ts' :=
  execute_tasks_partial_failure_amended teamRaisesEmpty [taskPonder, taskReflect]
    (by decide)

/-- C9: a task whose description mentions "command" (case-insensitively)
but neither "run:" nor "execute:" takes the command path of
`_execute_single_task`: no command can be extracted, the assigned agent's
`process_request` is never invoked (the call log is unchanged), and the
task completes with `success = true` and output exactly
"No command found in task". -/
theorem command_keyword_without_command_completes (st : OrchState) (task : Task)
    (ag : OAgent)
    (hcmd : pyIn "command" (pyLower task.description) = true)
    (hrun : pyIn "run:" (pyLower task.description) = false)
    (hexec : pyIn "execute:" (pyLower task.description) = false)
    (hfound : findAssignedAgent st.agents task.assigned_agent = some ag)
    (hreg : pyTruthyStr task.assigned_agent = true →
      (dictGet? st.agent_task_assignments (pyStrOpt task.assigned_agent)).isSome = true) :
    ∃ t' st', execute_single_task st task
        = .ok ({ task_id := task.id, success := true,
                 output := .text "No command found in task",
                 metaAgent := some ag.name, metaDescription := task.description }, t', st')
      ∧ t'.status = TaskStatus.completed
      ∧ st'.agentCallLog = st.agentCallLog := by
  have hfound' : findAssignedAgent st.agents
      ({ task with status := TaskStatus.running } : Task).assigned_agent = some ag := hfound
  have hbody : execute_single_task_body st { task with status := TaskStatus.running }
      = .ok (.text "No command found in task", ag,
          { st with agent_availability := dictSet st.agent_availability ag.name false }) := by
    unfold execute_single_task_body
    rw [hfound']
    have hext : extract_command_from_task { task with status := TaskStatus.running }
        = Option.none := by
      unfold extract_command_from_task
      simp [hrun, hexec]
    simp [hrun, hexec, hcmd, hext]
  obtain ⟨st', hfin, -, hlog, -, -⟩ :=
    finally_ok_facts
      { { st with agent_availability := dictSet st.agent_availability ag.name false } with
        completed_tasks := dictSet st.completed_tasks task.id
          { task_id := task.id, success := true,
            output := .text "No command found in task",
            metaAgent := some ag.name, metaDescription := task.description }
        tasks := dictSet st.tasks task.id
          { task with status := TaskStatus.completed,
                      output_data := some (.text "No command found in task") } }
      { task with status := TaskStatus.completed,
                  output_data := some (.text "No command found in task") }
      { task_id := task.id, success := true,
        output := .text "No command found in task",
        metaAgent := some ag.name, metaDescription := task.description }
      hreg
  refine ⟨{ task with status := TaskStatus.completed, output_data := some (.text "No command found in task") }, st', ?_, rfl, ?_⟩
  · simp only [execute_single_task, hbody]
    exact hfin
  · exact hlog

/-- The team and task of the C9 witness: the agent would report being
called, but is never invoked. -/
def agentNeverCalled : OAgent :=
  { name := "A", description := "",
    processRequest := fun _ => .error "should not be called" }

/-- Team holding only `agentNeverCalled`. -/
def teamNeverCalled : OrchState := add_agent {} agentNeverCalled

/-- The C9 witness task: mentions "command", extracts nothing. -/
def taskCheckCommand : Task :=
  { id := "w9", description := "Check the command output", assigned_agent := some "A" }

/-- Witness for C9: the concrete task completes with the fixed output and
an empty call log. -/
theorem command_keyword_without_command_completes_witness :
    ∃ t' st', execute_single_task teamNeverCalled taskCheckCommand
        = .ok ({ task_id := "w9", success := true,
                 output := .text "No command found in task",
                 metaAgent := some "A", metaDescription := "Check the command output" }, t', st')
      ∧ t'.status = TaskStatus.completed
      ∧ st'.agentCallLog = teamNeverCalled.agentCallLog :=
  command_keyword_without_command_completes teamNeverCalled taskCheckCommand
    agentNeverCalled (by decide) (by decide) (by decide) rfl (by decide)

/-- With a nonempty registry, the single-agent fallback path always
returns a response (the classifier cannot raise, and the agent call's
exception is converted into an error-string output). -/
theorem fallback_route_request_ok (st : OrchState) (user_msg : String)
    (h : st.agents ≠ []) :
    ∃ r, fallback_route_request st user_msg = .ok r := by
  unfold fallback_route_request
  cases hc : (classify_request st user_msg).orElse (fun _ => st.agents.head?) with
  | none =>
    exfalso
    rcases ho : classify_request st user_msg with _ | a
    · rw [ho] at hc
      cases hagents : st.agents with
      | nil => exact h hagents
      | cons x xs =>
        rw [hagents] at hc
        simp [Option.orElse] at hc
    · rw [ho] at hc
      simp [Option.orElse] at hc
  | some agent =>
    cases hpr : agent.processRequest user_msg with
    | ok o =>
      simp only [hpr]
      exact ⟨_, rfl⟩
    | error e =>
      simp only [hpr]
      exact ⟨_, rfl⟩

/-- C10: provided at least one agent is registered, `route_request`
always returns a response object: any exception escaping the task
pipeline is caught and routed to the single-agent fallback path, which
itself catches the classified agent's exception and returns a response
whose output is the error string. -/
theorem route_request_always_returns_response (st : OrchState) (user_msg : String)
    (h : st.agents ≠ []) :
    (∃ r, route_request st user_msg = .ok r)
    ∧ (∀ a e, classify_request st user_msg = some a →
        a.processRequest user_msg = .error e →
        fallback_route_request st user_msg
          = .ok { streaming := false, agent_name := some a.name,
                  output := "Error processing request: " ++ e }) := by
  constructor
  · unfold route_request
    rw [if_neg (by simpa [List.isEmpty_iff] using h)]
    cases hp : route_request_pipeline st user_msg with
    | ok resp => exact ⟨resp, rfl⟩
    | error e => exact fallback_route_request_ok st user_msg h
  · intro a e hc hpr
    unfold fallback_route_request
    have horelse : (classify_request st user_msg).orElse (fun _ => st.agents.head?)
        = some a := by
      rw [hc]
      rfl
    simp only [horelse, hpr]

/-- The one-agent team of the C10 witness, whose only agent raises. -/
def teamRaisesBoom : OrchState :=
  add_agent {} { name := "A", description := "",
                 processRequest := fun _ => .error "boom" }

/-- Witness for C10: the raising team still produces a response, and the
fallback converts the raised "boom" into the error-string output. -/
theorem route_request_always_returns_response_witness :
    (∃ r, route_request teamRaisesBoom "hello there" = .ok r)
    ∧ fallback_route_request teamRaisesBoom "hello there"
        = .ok { streaming := false, agent_name := some "A",
                output := "Error processing request: " ++ "boom" } :=
  ⟨(route_request_always_returns_response teamRaisesBoom "hello there"
      (List.cons_ne_nil _ _)).1,
   (route_request_always_returns_response teamRaisesBoom "hello there"
      (List.cons_ne_nil _ _)).2
     { name := "A", description := "", processRequest := fun _ => .error "boom" }
     "boom" rfl rfl⟩

end Cordon
